import Mathlib

/-!
Verification of the continuous-panorama capture pipeline (photosphere.py)
and the cylindrical viewer (viewer.py).

Each part of the program that the verified properties depend on is
shallowly embedded below: pure numeric code becomes functions over ℚ/ℝ,
the stateful pipeline pieces become explicit state-passing functions, and
the external OpenCV collaborators (resize, grayscale conversion, feature
extraction, matching, the Stitcher) are abstracted as function parameters
or outcome parameters, exactly at the boundaries the program treats them
as black boxes.
-/

namespace Photosphere

/-! ## Configuration constants (ContinuousPanoramaGUI.__init__) -/

def min_frames_before_stitch : Nat := 3

def max_frames_for_360 : Nat := 50

/-! ## Bounded capture queue (capture_frames / update_camera_view)

`frame_queue = queue.Queue(maxsize=5)`.  The producer does
`put(block=False)`; on `queue.Full` it does `get_nowait()` (removing the
oldest element of the FIFO queue) and then re-`put`s the new frame.  The
consumer (`update_camera_view`) reads with `get_nowait()`, which returns
the element at the front of the FIFO queue.  Frames are modelled by
identifiers; the queue is a list whose head is the oldest element. -/

def frame_queue_put (q : List Nat) (f : Nat) : List Nat :=
  if q.length < 5 then q ++ [f] else q.drop 1 ++ [f]

def frame_queue_put_all (q : List Nat) (fs : List Nat) : List Nat :=
  fs.foldl frame_queue_put q

/-! ## Stitch scheduler (capture_frame_for_panorama / continuous_stitch_loop /
stitch_current_frames)

`stitch_queue = queue.Queue()` is created with no `maxsize`, i.e. an
UNBOUNDED queue of identical string tokens; its state is fully described by
the number of queued tokens (`pending`).  The external `cv2.Stitcher` call
is abstracted by a `StitchOutcome`: it returns a status and an image, or
raises an exception. -/

inductive StitchStatus where
  | ok
  | errNeedMoreImgs
  | errHomographyEstFail
  | errCameraParamsAdjustFail
  | other (code : Int)
deriving DecidableEq

inductive StitchOutcome where
  | ret (status : StitchStatus) (image : Nat)
  | exc
deriving DecidableEq

structure StitchState where
  pending : Nat
  stitching_in_progress : Bool
  frames_len : Nat
  current_panorama : Option Nat
  stitch_status_text : String
  stitcher_calls : Nat
deriving DecidableEq

/-- Embeds `get_stitch_error_message`: the dictionary lookup with default
`f"Error {status}"`; the cv2 constants are OK=0, NEED_MORE_IMGS=1,
HOMOGRAPHY_EST_FAIL=2, CAMERA_PARAMS_ADJUST_FAIL=3. -/
def get_stitch_error_message : StitchStatus → String
  | .ok => "Error 0"
  | .errNeedMoreImgs => "Need more images"
  | .errHomographyEstFail => "Poor overlap - rotate slower"
  | .errCameraParamsAdjustFail => "Camera adjust fail"
  | .other code => "Error " ++ toString code

/-- The stitch-request post in `capture_frame_for_panorama` (lines 464-468):
guarded by `len(self.frames) >= self.min_frames_before_stitch`, then
`stitch_queue.put("stitch", block=False)`.  Because the queue is unbounded,
the `put` never raises `queue.Full`, so the `except queue.Full: pass`
branch is dead code and every post enqueues a token. -/
def request_stitch (s : StitchState) : StitchState :=
  if min_frames_before_stitch ≤ s.frames_len then
    { s with pending := s.pending + 1 }
  else s

/-- The guard and flag-set prefix of `stitch_current_frames`: return `none`
(refuse) if a run is in progress or too few frames are stored; otherwise the
in-progress flag is set and the status label shows a run is under way. -/
def stitch_begin (s : StitchState) : Option StitchState :=
  if s.stitching_in_progress || s.frames_len < min_frames_before_stitch then none
  else some { s with stitching_in_progress := true,
                     stitch_status_text := "Stitching: Working..." }

/-- Embeds `post_process_360_panorama`: the entire body is commented out; the
function returns its argument unchanged. -/
def post_process_360_panorama (p : Nat) : Nat := p

/-- The `try`/`except` body of `stitch_current_frames`: invoke the external
stitcher once; on `cv2.Stitcher_OK` publish the (post-processed) panorama
and a success status, on any other status publish only the failure message,
and if the call raises, publish only the generic error message. -/
def stitch_body (s : StitchState) (outcome : StitchOutcome) : StitchState :=
  match outcome with
  | .ret .ok image =>
      { s with stitcher_calls := s.stitcher_calls + 1,
               current_panorama := some (post_process_360_panorama image),
               stitch_status_text := "Stitching: Success" }
  | .ret status _ =>
      { s with stitcher_calls := s.stitcher_calls + 1,
               stitch_status_text := "Stitching: " ++ get_stitch_error_message status }
  | .exc =>
      { s with stitcher_calls := s.stitcher_calls + 1,
               stitch_status_text := "Stitching: Error" }

/-- The `finally` clause of `stitch_current_frames`: clear the in-progress
flag, whatever happened. -/
def stitch_finish (s : StitchState) : StitchState :=
  { s with stitching_in_progress := false }

/-- Embeds `stitch_current_frames`, assembled: guard, flag set, stitcher
invocation, unconditional flag release. -/
def stitch_current_frames (s : StitchState) (outcome : StitchOutcome) : StitchState :=
  match stitch_begin s with
  | none => s
  | some s1 => stitch_finish (stitch_body s1 outcome)

/-- One iteration of `continuous_stitch_loop`: `stitch_queue.get(timeout=1.0)`
removes one token if any is queued (otherwise `queue.Empty` and the loop
just continues), then calls `stitch_current_frames` if no run is in
progress and enough frames are stored. -/
def continuous_stitch_step (s : StitchState) (outcome : StitchOutcome) : StitchState :=
  if 0 < s.pending then
    let s1 := { s with pending := s.pending - 1 }
    if !s1.stitching_in_progress && min_frames_before_stitch ≤ s1.frames_len then
      stitch_current_frames s1 outcome
    else s1
  else s

def continuous_stitch_run (s : StitchState) (outcomes : List StitchOutcome) : StitchState :=
  outcomes.foldl continuous_stitch_step s

/-! ## Frame store and acceptance loop (process_frame_for_capture /
capture_frame_for_panorama / connect_and_start / clear_panorama)

Only the counters and the frame bookkeeping matter for the stored-frame
invariants; the pixel contents of the frames are irrelevant, so the list
of frames is represented by its length.  Times and scene-change scores are
rationals; the score passed to an acceptance iteration abstracts
`calculate_scene_change(previous_frame, current_frame)`. -/

structure CaptureState where
  total_frames : Nat
  frames_len : Nat
  last_capture_time : ℚ
  previous_frame : Option Nat
  current_frame : Option Nat
deriving DecidableEq

/-- Embeds `capture_frame_for_panorama`: it returns unchanged when no current frame
exists; otherwise appends exactly one frame to `self.frames` and increments
`self.total_frames` by exactly one (the downscale-to-800 and the cylindrical
pre-warp transform the appended pixels, not the counters). -/
def capture_frame_for_panorama (s : CaptureState) : CaptureState :=
  match s.current_frame with
  | none => s
  | some _ => { s with frames_len := s.frames_len + 1,
                       total_frames := s.total_frames + 1 }

/-- One iteration of the acceptance loop body `process_frame_for_capture`:
skip when the minimum capture interval has not elapsed; skip when
`total_frames >= max_frames_for_360`; otherwise, when a previous frame
exists and the scene-change score strictly exceeds the threshold, accept the
frame and record the capture time; finally replace the rolling previous
frame by the current live frame. -/
def process_frame_for_capture (threshold interval : ℚ) (s : CaptureState)
    (now change_score : ℚ) : CaptureState :=
  if now - s.last_capture_time < interval then s
  else if max_frames_for_360 ≤ s.total_frames then s
  else
    match s.previous_frame with
    | some _ =>
        if threshold < change_score then
          { capture_frame_for_panorama s with
              last_capture_time := now, previous_frame := s.current_frame }
        else { s with previous_frame := s.current_frame }
    | none => { s with previous_frame := s.current_frame }

/-- The mutations of the capture session that touch `self.frames` or
`self.total_frames`:
an acceptance-loop iteration, the direct initial capture taken by
`take_initial_capture`, the consumer installing a new live frame
(`update_camera_view`), the session reset in `connect_and_start`
(`frames.clear()`, `total_frames = 0`), and `clear_panorama` (likewise). -/
inductive CaptureOp where
  | proc (now change_score : ℚ)
  | initial_capture
  | set_current (f : Option Nat)
  | start_session
  | clear_panorama
deriving DecidableEq

def capture_step (threshold interval : ℚ) (s : CaptureState) : CaptureOp → CaptureState
  | .proc now change_score => process_frame_for_capture threshold interval s now change_score
  | .initial_capture => capture_frame_for_panorama s
  | .set_current f => { s with current_frame := f }
  | .start_session => { s with total_frames := 0, frames_len := 0 }
  | .clear_panorama => { s with total_frames := 0, frames_len := 0 }

/-- The state built by `__init__`: `frames = []`, `total_frames = 0`,
`last_capture_time = 0`, no previous or current frame. -/
def initial_capture_state : CaptureState :=
  { total_frames := 0, frames_len := 0, last_capture_time := 0,
    previous_frame := none, current_frame := none }

/-! ## Scene-change gate (calculate_scene_change, gate at line 383)

Pixel buffers are functions from coordinates to BGR rational triples.  The
external OpenCV operations `cv2.resize` and `cv2.cvtColor(..., BGR2GRAY)`
are abstracted as function parameters; the surrounding arithmetic — the
downscale branch and target dimensions, the mean absolute difference, and
the strict threshold comparison — is embedded from the source. -/

structure Img where
  w : Nat
  h : Nat
  px : Nat → Nat → ℚ × ℚ × ℚ

structure GrayImg where
  w : Nat
  h : Nat
  px : Nat → Nat → ℚ

/-- Embeds `np.mean(cv2.absdiff(gray1, gray2))`: the mean of the absolute pixel
differences over the (common) raster of the two grayscale images. -/
def mean_abs_diff (g1 g2 : GrayImg) : ℚ :=
  (∑ i ∈ Finset.range g1.h, ∑ j ∈ Finset.range g1.w, |g1.px i j - g2.px i j|) /
    ((g1.h : ℚ) * (g1.w : ℚ))

def downscale_width : Nat := 320

/-- The target dimensions of the downscale branch:
`scale = 320 / w1`, `new_w = int(w1 * scale)`, `new_h = int(h1 * scale)`
(`int` truncates, which is the floor for these non-negative values);
both frames are resized to the dimensions derived from frame1. -/
def downscaled_dims (frame1 : Img) : Nat × Nat :=
  ((⌊(frame1.w : ℚ) * ((downscale_width : ℚ) / (frame1.w : ℚ))⌋).toNat,
   (⌊(frame1.h : ℚ) * ((downscale_width : ℚ) / (frame1.w : ℚ))⌋).toNat)

/-- Embeds `calculate_scene_change`: if `w1 > 320`, both frames are resized to
`(int(w1*scale), int(h1*scale))` with `scale = 320/w1` (dimensions taken
from frame1 for both); then both are converted to grayscale and the mean
absolute difference is returned. -/
def calculate_scene_change (resize : Img → Nat → Nat → Img)
    (cvt_gray : Img → GrayImg) (frame1 frame2 : Img) : ℚ :=
  if downscale_width < frame1.w then
    mean_abs_diff
      (cvt_gray (resize frame1 (downscaled_dims frame1).1 (downscaled_dims frame1).2))
      (cvt_gray (resize frame2 (downscaled_dims frame1).1 (downscaled_dims frame1).2))
  else mean_abs_diff (cvt_gray frame1) (cvt_gray frame2)

/-- The acceptance decision of `process_frame_for_capture` line 383:
`change_score > self.scene_change_threshold`. -/
def scene_gate (resize : Img → Nat → Nat → Img) (cvt_gray : Img → GrayImg)
    (frame1 frame2 : Img) (threshold : ℚ) : Bool :=
  decide (threshold < calculate_scene_change resize cvt_gray frame1 frame2)

/-! ## Circle-completion detector (detect_full_circle)

SIFT descriptors are opaque tokens (`Nat`); `cv2.BFMatcher.knnMatch` with
k=2 returns lists of match pairs carrying a distance.  Grayscale
conversion + `detectAndCompute` (which may return `None` descriptors or
raise) is one abstract operation, `knnMatch` (which may raise) another;
a raised exception is an `Except.error`, caught by the function's
`except` clause which returns `False`. -/

structure KnnMatch where
  distance : ℚ
deriving DecidableEq

/-- The ratio-test filter: keep `m` from each 2-element pair `[m, n]` with
`m.distance < 0.7 * n.distance`. -/
def good_matches (match_pairs : List (List KnnMatch)) : List KnnMatch :=
  match_pairs.filterMap fun pair =>
    match pair with
    | [m, n] => if m.distance < 7 / 10 * n.distance then some m else none
    | _ => none

/-- The `try` body of `detect_full_circle`: extract descriptors from the
first (`frames[0]`) and last (`frames[-1]`) frame; if both are non-`None`
and hold more than 10 descriptors, run the k=2 match and report whether
more than 20 ratio-test survivors remain; any raising step propagates as
`Except.error`. -/
def detect_full_circle_attempt
    (detect_and_compute : Img → Except Unit (Option (List Nat)))
    (knn_match : List Nat → List Nat → Except Unit (List (List KnnMatch)))
    (frames : List Img) : Except Unit Bool :=
  match frames.head?, frames.getLast? with
  | some first_frame, some last_frame =>
      match detect_and_compute first_frame with
      | .error e => .error e
      | .ok des1 =>
          match detect_and_compute last_frame with
          | .error e => .error e
          | .ok des2 =>
              match des1, des2 with
              | some d1, some d2 =>
                  if 10 < d1.length ∧ 10 < d2.length then
                    match knn_match d1 d2 with
                    | .error e => .error e
                    | .ok ms => .ok (decide (20 < (good_matches ms).length))
                  else .ok false
              | _, _ => .ok false
  | _, _ => .ok false

/-- Embeds `detect_full_circle`: fewer than 10 frames is immediately `False`;
otherwise the `try` body runs, and the `except` clause turns any internal
failure into `False`. -/
def detect_full_circle
    (detect_and_compute : Img → Except Unit (Option (List Nat)))
    (knn_match : List Nat → List Nat → Except Unit (List (List KnnMatch)))
    (frames : List Img) : Bool :=
  if frames.length < 10 then false
  else
    match detect_full_circle_attempt detect_and_compute knn_match frames with
    | .ok b => b
    | .error _ => false

/-! ## Viewer navigation state (viewer.py)

Yaw and pitch are floats mutated by mouse drags and arrow keys; the field
of view is an integer mutated by the plus and minus keys.  `%` is Python's
floating-point modulo (result has the sign of the divisor) and `np.clip`
is min-max clamping. -/

structure NavState where
  yaw : ℚ
  pitch : ℚ
  fov : ℤ
deriving DecidableEq

def sensitivity : ℚ := 1 / 2

def max_pitch : ℚ := 45

/-- Python float `x % m` for positive `m`: `x - m * ⌊x / m⌋`. -/
def float_mod (x m : ℚ) : ℚ := x - m * ⌊x / m⌋

/-- Embeds `np.clip(x, lo, hi) = min(max(x, lo), hi)`. -/
def np_clip (x lo hi : ℚ) : ℚ := min (max x lo) hi

/-- Embeds `mouse_callback` on a move with the button down: yaw accumulates
`dx * sensitivity` and wraps mod 360; pitch accumulates `-dy * sensitivity`
and is clipped to `[-max_pitch, max_pitch]`. -/
def mouse_drag (s : NavState) (dx dy : ℚ) : NavState :=
  { s with
    yaw := float_mod (s.yaw + dx * sensitivity) 360,
    pitch := np_clip (s.pitch - dy * sensitivity) (-max_pitch) max_pitch }

def key_reset (s : NavState) : NavState := { s with yaw := 0, pitch := 0 }

def key_fov_increase (s : NavState) : NavState := { s with fov := min (s.fov + 5) 150 }

def key_fov_decrease (s : NavState) : NavState := { s with fov := max (s.fov - 5) 30 }

def key_left (s : NavState) : NavState := { s with yaw := float_mod (s.yaw - 5) 360 }

def key_right (s : NavState) : NavState := { s with yaw := float_mod (s.yaw + 5) 360 }

def key_up (s : NavState) : NavState :=
  { s with pitch := np_clip (s.pitch + 5) (-max_pitch) max_pitch }

def key_down (s : NavState) : NavState :=
  { s with pitch := np_clip (s.pitch - 5) (-max_pitch) max_pitch }

inductive NavEvent where
  | drag (dx dy : ℚ)
  | reset
  | fov_increase
  | fov_decrease
  | left
  | right
  | up
  | down

/-- Every navigation-state mutation reachable from an input event in
`mouse_callback` and the key dispatch of `run`. -/
def nav_step (s : NavState) : NavEvent → NavState
  | .drag dx dy => mouse_drag s dx dy
  | .reset => key_reset s
  | .fov_increase => key_fov_increase s
  | .fov_decrease => key_fov_decrease s
  | .left => key_left s
  | .right => key_right s
  | .up => key_up s
  | .down => key_down s

/-- Embeds `CylindricalViewer.__init__`: yaw 0, pitch 0, fov 90. -/
def viewer_init : NavState := { yaw := 0, pitch := 0, fov := 90 }

/-- Embeds `main`: `viewer.fov = args.fov` — the CLI field of view is installed
without any clamping. -/
def main_configure (s : NavState) (arg_fov : ℤ) : NavState := { s with fov := arg_fov }

/-- The NavigationState invariant stated by the specification. -/
def nav_in_range (s : NavState) : Prop :=
  0 ≤ s.yaw ∧ s.yaw < 360 ∧ -45 ≤ s.pitch ∧ s.pitch ≤ 45 ∧ 30 ≤ s.fov ∧ s.fov ≤ 150

instance (s : NavState) : Decidable (nav_in_range s) := by
  unfold nav_in_range
  infer_instance

/-! ## Cylindrical pre-warp (apply_cylindrical_projection)

The code computes `focal_length = w / (2 * np.tan(np.pi / 6.85))` next to a
comment asserting a 68.5-degree field of view. -/

noncomputable def focal_length (w : ℝ) : ℝ := w / (2 * Real.tan (Real.pi / 6.85))

/-- Modelled from the spec: the focal-length formula the specification
states for the cylindrical pre-warp, L = w / (2·tan(f/2)) with the assumed
horizontal field of view f given in degrees (f/2 converted to radians). -/
noncomputable def focal_length_spec (w fov_degrees : ℝ) : ℝ :=
  w / (2 * Real.tan (fov_degrees * Real.pi / 180 / 2))

/-- The destination→source x-map of `apply_cylindrical_projection`:
`theta = x_c / L`, `x_new = L * theta + w/2` with `x_c = x - w/2`. -/
noncomputable def cyl_x_new (w x_dest : ℝ) : ℝ :=
  focal_length w * ((x_dest - w / 2) / focal_length w) + w / 2

/-- The destination→source y-map of `apply_cylindrical_projection`:
`h_cyl = y_c / sqrt(x_c² + L²) * L`, `y_new = h_cyl + h/2`. -/
noncomputable def cyl_y_new (w h x_dest y_dest : ℝ) : ℝ :=
  (y_dest - h / 2) / Real.sqrt ((x_dest - w / 2) ^ 2 + focal_length w ^ 2) *
    focal_length w + h / 2

/-! ## Concrete instances of the abstracted OpenCV operations

Used to exercise the gate and the circle detector on closed inputs: a
resize that only relabels the raster dimensions, a grayscale conversion
that projects the first (blue) channel, constant test images, an
extractor that always yields eleven descriptors, and a matcher that
always yields twenty-one ratio-test-passing pairs. -/

def id_resize : Img → Nat → Nat → Img :=
  fun f nw nh => { w := nw, h := nh, px := f.px }

def take_blue : Img → GrayImg :=
  fun f => { w := f.w, h := f.h, px := fun i j => (f.px i j).1 }

def img_wide_a : Img := { w := 400, h := 2, px := fun _ _ => (10, 0, 0) }

def img_wide_b : Img := { w := 400, h := 2, px := fun _ _ => (0, 0, 0) }

def img_small : Img := { w := 100, h := 2, px := fun _ _ => (10, 0, 0) }

def detect_eleven : Img → Except Unit (Option (List Nat)) :=
  fun _ => .ok (some (List.range 11))

def knn_twentyone : List Nat → List Nat → Except Unit (List (List KnnMatch)) :=
  fun _ _ => .ok (List.replicate 21 [{ distance := 0 }, { distance := 1 }])

def frames_ten : List Img :=
  [img_small, img_small, img_small, img_small, img_small,
   img_small, img_small, img_small, img_small, img_small]

/-! ## Properties of the bounded capture queue -/

lemma frame_queue_put_length_le (q : List Nat) (f : Nat) (h : q.length ≤ 5) :
    (frame_queue_put q f).length ≤ 5 := by
  unfold frame_queue_put
  split
  · simp only [List.length_append, List.length_singleton]
    omega
  · simp only [List.length_append, List.length_drop, List.length_singleton]
    omega

lemma frame_queue_put_all_eq_drop (fs : List Nat) :
    ∀ q : List Nat, q.length ≤ 5 →
      frame_queue_put_all q fs = (q ++ fs).drop (q.length + fs.length - 5) := by
  induction fs with
  | nil =>
      intro q hq
      simp only [frame_queue_put_all, List.foldl_nil, List.append_nil, List.length_nil]
      rw [show q.length + 0 - 5 = 0 by omega, List.drop_zero]
  | cons f fs ih =>
      intro q hq
      have hstep : frame_queue_put_all q (f :: fs) =
          frame_queue_put_all (frame_queue_put q f) fs := rfl
      rw [hstep, ih _ (frame_queue_put_length_le q f hq)]
      by_cases hlt : q.length < 5
      · have hput : frame_queue_put q f = q ++ [f] := by
          unfold frame_queue_put; rw [if_pos hlt]
        rw [hput]
        have hlist : (q ++ [f]) ++ fs = q ++ f :: fs := by simp
        rw [hlist]
        congr 1
        simp only [List.length_append, List.length_singleton, List.length_cons,
          List.length_nil]
        omega
      · have hq5 : q.length = 5 := by omega
        have hput : frame_queue_put q f = q.drop 1 ++ [f] := by
          unfold frame_queue_put; rw [if_neg hlt]
        rw [hput]
        have hlist : (q.drop 1 ++ [f]) ++ fs = (q ++ f :: fs).drop 1 := by
          rw [List.drop_append_of_le_length (by omega)]
          simp
        rw [hlist, List.drop_drop]
        congr 1
        simp only [List.length_append, List.length_drop, List.length_singleton,
          List.length_cons, List.length_nil]
        omega

/-- Claim C3 (amended): when the producer pushes a frame into the full
fixed-capacity-5 queue, the oldest queued frame is dropped and the newest is
inserted at the back; under production without consumption the queue holds
exactly the five most recently produced frames, so the next consumer read
(`get_nowait`, which takes the FIFO front) yields the OLDEST of the five most
recently produced frames — not the most recently produced frame. -/
theorem frame_queue_freshness (q : List Nat) (f : Nat) (fs : List Nat) :
    (q.length = 5 → frame_queue_put q f = q.drop 1 ++ [f]) ∧
    (q.length < 5 → frame_queue_put q f = q ++ [f]) ∧
    frame_queue_put_all [] fs = fs.drop (fs.length - 5) ∧
    (frame_queue_put_all [] fs).head? = (fs.drop (fs.length - 5)).head? := by
  have hall : frame_queue_put_all [] fs = fs.drop (fs.length - 5) := by
    have h := frame_queue_put_all_eq_drop fs [] (by simp)
    simpa using h
  refine ⟨?_, ?_, hall, by rw [hall]⟩
  · intro h5
    unfold frame_queue_put
    rw [if_neg (by omega)]
  · intro hlt
    unfold frame_queue_put
    rw [if_pos hlt]

theorem frame_queue_freshness_witness :
    frame_queue_put [10, 11, 12, 13, 14] 99 = [11, 12, 13, 14, 99] ∧
    frame_queue_put [10] 99 = [10, 99] ∧
    frame_queue_put_all [] [1, 2, 3, 4, 5, 6] = [2, 3, 4, 5, 6] := by
  refine ⟨?_, ?_, ?_⟩
  · have h := (frame_queue_freshness [10, 11, 12, 13, 14] 99 []).1 (by decide)
    simpa using h
  · have h := (frame_queue_freshness [10] 99 []).2.1 (by decide)
    simpa using h
  · have h := (frame_queue_freshness [] 0 [1, 2, 3, 4, 5, 6]).2.2.1
    simpa using h

/-- Claim C3 counterexample: produce frames 1,…,6 into the empty capacity-5
queue with no intervening consumption (production outpacing consumption); the
next consumer read returns frame 2, not the most recently produced frame 6. -/
theorem frame_queue_next_read_not_most_recent :
    (frame_queue_put_all [] [1, 2, 3, 4, 5, 6]).head? = some 2 ∧
    (frame_queue_put_all [] [1, 2, 3, 4, 5, 6]).head? ≠ some 6 := by
  decide

/-! ## Properties of the stitch scheduler -/
lemma stitch_current_frames_effect (s : StitchState) (o : StitchOutcome)
    (hip : s.stitching_in_progress = false)
    (hf : min_frames_before_stitch ≤ s.frames_len) :
    (stitch_current_frames s o).stitcher_calls = s.stitcher_calls + 1 ∧
    (stitch_current_frames s o).stitching_in_progress = false ∧
    (stitch_current_frames s o).pending = s.pending ∧
    (stitch_current_frames s o).frames_len = s.frames_len := by
  have hbegin : stitch_begin s = some { s with stitching_in_progress := true, stitch_status_text := "Stitching: Working..." } := by
    unfold stitch_begin
    rw [hip]
    simp [Nat.not_lt.mpr hf]
  cases o with
  | ret st img =>
      cases st <;>
        simp [stitch_current_frames, hbegin, stitch_body, stitch_finish]
  | exc =>
      simp [stitch_current_frames, hbegin, stitch_body, stitch_finish]

lemma continuous_stitch_drain (outs : List StitchOutcome) :
    ∀ s : StitchState, s.pending = outs.length → s.stitching_in_progress = false →
      min_frames_before_stitch ≤ s.frames_len →
      (continuous_stitch_run s outs).stitcher_calls = s.stitcher_calls + outs.length := by
  induction outs with
  | nil =>
      intro s _ _ _
      simp [continuous_stitch_run]
  | cons o os ih =>
      intro s hp hip hf
      have hlen : s.pending = os.length + 1 := by simpa using hp
      have hpos : 0 < s.pending := by omega
      have hstep : continuous_stitch_step s o =
          stitch_current_frames { s with pending := s.pending - 1 } o := by
        unfold continuous_stitch_step
        simp [hpos, hip, hf]
      have heff := stitch_current_frames_effect { s with pending := s.pending - 1 } o hip hf
      have hp2 : (stitch_current_frames { s with pending := s.pending - 1 } o).pending =
          os.length := by
        rw [heff.2.2.1]
        show s.pending - 1 = os.length
        omega
      have hf2 : min_frames_before_stitch ≤
          (stitch_current_frames { s with pending := s.pending - 1 } o).frames_len := by
        rw [heff.2.2.2]
        exact hf
      have hgoal : continuous_stitch_run s (o :: os) =
          continuous_stitch_run (stitch_current_frames { s with pending := s.pending - 1 } o)
            os := by
        rw [← hstep]
        rfl
      rw [hgoal, ih _ hp2 heff.2.1 hf2, heff.1]
      show s.stitcher_calls + 1 + os.length = s.stitcher_calls + (o :: os).length
      simp [List.length_cons]
      omega

/-- Claim C2 (amended): the stitch-request signal is an UNBOUNDED counting
queue, not a boolean latch.  Every post made with enough frames stored
enqueues one more token (the non-blocking `put` can never fail on an
unbounded queue), and the scheduler loop executes one further fusion run
per queued token once the in-flight run has completed: k requests posted
while a run is in progress lead to k further runs, not to one. -/
theorem stitch_requests_not_coalesced (s : StitchState) (outs : List StitchOutcome)
    (hp : s.pending = outs.length) (hip : s.stitching_in_progress = false)
    (hf : min_frames_before_stitch ≤ s.frames_len) :
    (continuous_stitch_run s outs).stitcher_calls = s.stitcher_calls + outs.length ∧
    (∀ t : StitchState, min_frames_before_stitch ≤ t.frames_len →
      (request_stitch t).pending = t.pending + 1) := by
  refine ⟨continuous_stitch_drain outs s hp hip hf, ?_⟩
  intro t ht
  unfold request_stitch
  rw [if_pos ht]

theorem stitch_requests_not_coalesced_witness :
    (continuous_stitch_run ⟨2, false, 3, none, "idle", 0⟩
      [.exc, .ret .errNeedMoreImgs 0]).stitcher_calls = 0 + 2 ∧
    (request_stitch ⟨0, true, 3, none, "busy", 0⟩).pending = 0 + 1 := by
  have h := stitch_requests_not_coalesced ⟨2, false, 3, none, "idle", 0⟩
    [.exc, .ret .errNeedMoreImgs 0] rfl rfl (by decide)
  exact ⟨h.1, h.2 ⟨0, true, 3, none, "busy", 0⟩ (by decide)⟩

/-- Claim C2 counterexample: two stitch requests posted while a run is in
progress (frame store above the minimum) do NOT collapse to one pending
run: after the in-flight run releases the flag, the scheduler loop performs
two further stitcher invocations, not at most one. -/
theorem stitch_requests_counterexample :
    (continuous_stitch_run
        (stitch_finish (request_stitch (request_stitch
          ⟨0, true, 3, none, "Stitching: Working...", 0⟩)))
        [.ret .ok 7, .ret .ok 8]).stitcher_calls = 2 ∧
    ¬ ((continuous_stitch_run
        (stitch_finish (request_stitch (request_stitch
          ⟨0, true, 3, none, "Stitching: Working...", 0⟩)))
        [.ret .ok 7, .ret .ok 8]).stitcher_calls ≤ 1) := by
  constructor
  · rfl
  · decide

/-- Claim C4: `stitch_current_frames` refuses to start while the
in-progress flag is set (the state is returned unchanged, so the stitcher
is not invoked); when it does start, the flag is set before the stitcher
body runs, and the flag is false again when the call returns — whether the
stitcher returned success, returned a failure status, or raised an
exception (the release sits in a `finally` clause). -/
theorem stitch_single_flight (s : StitchState) (o : StitchOutcome) :
    (s.stitching_in_progress = true → stitch_current_frames s o = s) ∧
    (∀ s1 : StitchState, stitch_begin s = some s1 → s1.stitching_in_progress = true) ∧
    (s.stitching_in_progress = false →
      (stitch_current_frames s o).stitching_in_progress = false) := by
  refine ⟨?_, ?_, ?_⟩
  · intro hbusy
    unfold stitch_current_frames stitch_begin
    rw [hbusy]
    simp
  · intro s1 h1
    unfold stitch_begin at h1
    by_cases hc : (s.stitching_in_progress ||
        decide (s.frames_len < min_frames_before_stitch)) = true
    · rw [if_pos hc] at h1
      exact Option.noConfusion h1
    · rw [if_neg hc] at h1
      have h2 := Option.some.inj h1
      rw [← h2]
  · intro hidle
    unfold stitch_current_frames
    cases hb : stitch_begin s with
    | none => exact hidle
    | some s1 => simp [stitch_finish]

theorem stitch_single_flight_witness :
    stitch_current_frames ⟨0, true, 5, some 42, "Stitching: Working...", 1⟩ .exc =
      ⟨0, true, 5, some 42, "Stitching: Working...", 1⟩ ∧
    (⟨0, true, 5, some 41, "Stitching: Working...", 0⟩ : StitchState).stitching_in_progress
      = true ∧
    (stitch_current_frames ⟨0, false, 5, some 41, "idle", 0⟩ .exc).stitching_in_progress
      = false := by
  refine ⟨?_, ?_, ?_⟩
  · exact (stitch_single_flight ⟨0, true, 5, some 42, "Stitching: Working...", 1⟩ .exc).1 rfl
  · exact (stitch_single_flight ⟨0, false, 5, some 41, "idle", 0⟩ .exc).2.1
      ⟨0, true, 5, some 41, "Stitching: Working...", 0⟩ rfl
  · exact (stitch_single_flight ⟨0, false, 5, some 41, "idle", 0⟩ .exc).2.2 rfl

/-- Claim C6: when a fusion run ends in a non-OK status or in an exception,
the current-panorama slot keeps its previous (last successful) image — only
a successful run overwrites it — and only the status text presented to the
consumer is updated: to the mapped failure reason, or to the generic error
text when the stitcher raised. -/
theorem stitch_failure_preserves_panorama (s : StitchState) (st : StitchStatus)
    (img : Nat) :
    (st ≠ .ok → (stitch_current_frames s (.ret st img)).current_panorama =
      s.current_panorama) ∧
    (stitch_current_frames s .exc).current_panorama = s.current_panorama ∧
    (∀ s1 : StitchState, stitch_begin s = some s1 → st ≠ .ok →
      (stitch_current_frames s (.ret st img)).stitch_status_text =
        "Stitching: " ++ get_stitch_error_message st ∧
      (stitch_current_frames s .exc).stitch_status_text = "Stitching: Error") := by
  have hpan : ∀ o : StitchOutcome, (∀ i2 : Nat, o ≠ .ret .ok i2) →
      (stitch_current_frames s o).current_panorama = s.current_panorama := by
    intro o ho
    unfold stitch_current_frames
    cases hb : stitch_begin s with
    | none => rfl
    | some s1 =>
        have hs1 : s1.current_panorama = s.current_panorama := by
          unfold stitch_begin at hb
          by_cases hc : (s.stitching_in_progress ||
              decide (s.frames_len < min_frames_before_stitch)) = true
          · rw [if_pos hc] at hb
            exact Option.noConfusion hb
          · rw [if_neg hc] at hb
            have h2 := Option.some.inj hb
            rw [← h2]
        cases o with
        | ret st2 img2 =>
            cases st2 with
            | ok => exact absurd rfl (ho img2)
            | errNeedMoreImgs => simp [stitch_body, stitch_finish, hs1]
            | errHomographyEstFail => simp [stitch_body, stitch_finish, hs1]
            | errCameraParamsAdjustFail => simp [stitch_body, stitch_finish, hs1]
            | other code => simp [stitch_body, stitch_finish, hs1]
        | exc => simp [stitch_body, stitch_finish, hs1]
  refine ⟨?_, ?_, ?_⟩
  · intro hne
    apply hpan
    intro i2 hcontra
    have hst : st = .ok := by
      cases hcontra
      rfl
    exact hne hst
  · apply hpan
    intro i2 hcontra
    exact StitchOutcome.noConfusion hcontra
  · intro s1 hb hne
    have hrun : stitch_current_frames s (.ret st img) =
        stitch_finish (stitch_body s1 (.ret st img)) := by
      unfold stitch_current_frames
      rw [hb]
    have hrun2 : stitch_current_frames s .exc =
        stitch_finish (stitch_body s1 .exc) := by
      unfold stitch_current_frames
      rw [hb]
    constructor
    · rw [hrun]
      cases st with
      | ok => exact absurd rfl hne
      | errNeedMoreImgs => simp [stitch_body, stitch_finish, get_stitch_error_message]
      | errHomographyEstFail => simp [stitch_body, stitch_finish, get_stitch_error_message]
      | errCameraParamsAdjustFail =>
          simp [stitch_body, stitch_finish, get_stitch_error_message]
      | other code => simp [stitch_body, stitch_finish, get_stitch_error_message]
    · rw [hrun2]
      simp [stitch_body, stitch_finish]

theorem stitch_failure_preserves_panorama_witness :
    (stitch_current_frames ⟨0, false, 5, some 42, "Stitching: Success", 3⟩
      (.ret .errHomographyEstFail 9)).current_panorama = some 42 ∧
    (stitch_current_frames ⟨0, false, 5, some 42, "Stitching: Success", 3⟩
      (.ret .errHomographyEstFail 9)).stitch_status_text =
      "Stitching: " ++ get_stitch_error_message .errHomographyEstFail ∧
    (stitch_current_frames ⟨0, false, 5, some 42, "Stitching: Success", 3⟩
      .exc).stitch_status_text = "Stitching: Error" := by
  have h := stitch_failure_preserves_panorama
    ⟨0, false, 5, some 42, "Stitching: Success", 3⟩ .errHomographyEstFail 9
  have htext := h.2.2 ⟨0, true, 5, some 42, "Stitching: Working...", 3⟩ rfl (by decide)
  exact ⟨h.1 (by decide), htext.1, htext.2⟩

/-! ## Properties of the frame store and the acceptance loop -/

lemma capture_frame_preserves_eq (s : CaptureState)
    (h : s.total_frames = s.frames_len) :
    (capture_frame_for_panorama s).total_frames =
    (capture_frame_for_panorama s).frames_len := by
  unfold capture_frame_for_panorama
  cases s.current_frame <;> simp [h]

lemma process_preserves_eq (threshold interval : ℚ) (s : CaptureState)
    (now score : ℚ) (h : s.total_frames = s.frames_len) :
    (process_frame_for_capture threshold interval s now score).total_frames =
    (process_frame_for_capture threshold interval s now score).frames_len := by
  unfold process_frame_for_capture
  by_cases hA : now - s.last_capture_time < interval
  · rw [if_pos hA]; exact h
  rw [if_neg hA]
  by_cases hB : max_frames_for_360 ≤ s.total_frames
  · rw [if_pos hB]; exact h
  rw [if_neg hB]
  cases hp : s.previous_frame with
  | none => simpa using h
  | some pf =>
      by_cases hT : threshold < score
      · rw [if_pos hT]
        cases hc : s.current_frame <;>
          simp [capture_frame_for_panorama, hc, h]
      · rw [if_neg hT]
        simpa using h

lemma process_preserves_cap (threshold interval : ℚ) (s : CaptureState)
    (now score : ℚ) (heq : s.total_frames = s.frames_len)
    (hle : s.frames_len ≤ max_frames_for_360) :
    (process_frame_for_capture threshold interval s now score).frames_len ≤
      max_frames_for_360 := by
  unfold process_frame_for_capture
  by_cases hA : now - s.last_capture_time < interval
  · rw [if_pos hA]; exact hle
  rw [if_neg hA]
  by_cases hB : max_frames_for_360 ≤ s.total_frames
  · rw [if_pos hB]; exact hle
  rw [if_neg hB]
  cases hp : s.previous_frame with
  | none => simpa using hle
  | some pf =>
      by_cases hT : threshold < score
      · rw [if_pos hT]
        cases hc : s.current_frame <;>
          simp [capture_frame_for_panorama, hc] <;> omega
      · rw [if_neg hT]
        simpa using hle

lemma process_fold_cap (threshold interval : ℚ) (inputs : List (ℚ × ℚ)) :
    ∀ s : CaptureState, s.total_frames = s.frames_len →
      s.frames_len ≤ max_frames_for_360 →
      (inputs.foldl (fun s p => process_frame_for_capture threshold interval s p.1 p.2)
        s).frames_len ≤ max_frames_for_360 := by
  induction inputs with
  | nil =>
      intro s h1 h2
      simpa using h2
  | cons p ps ih =>
      intro s h1 h2
      exact ih _ (process_preserves_eq threshold interval s p.1 p.2 h1)
        (process_preserves_cap threshold interval s p.1 p.2 h1 h2)

lemma capture_fold_eq (threshold interval : ℚ) (ops : List CaptureOp) :
    ∀ s : CaptureState, s.total_frames = s.frames_len →
      (ops.foldl (capture_step threshold interval) s).total_frames =
      (ops.foldl (capture_step threshold interval) s).frames_len := by
  induction ops with
  | nil =>
      intro s h
      simpa using h
  | cons op ops ih =>
      intro s h
      apply ih
      cases op with
      | proc now score => exact process_preserves_eq threshold interval s now score h
      | initial_capture => exact capture_frame_preserves_eq s h
      | set_current f => simpa using h
      | start_session => rfl
      | clear_panorama => rfl

/-- Claim C5: every acceptance-loop iteration leaves the state unchanged
once 50 frames have been captured (a no-op plateau, not an error), and from
any state where the session counter matches the store (as it always does,
claim C10) with at most 50 stored frames, any number of acceptance-loop
iterations keeps the stored frame count at most 50. -/
theorem frame_store_capped (threshold interval : ℚ) (s0 : CaptureState)
    (heq : s0.total_frames = s0.frames_len)
    (hle : s0.frames_len ≤ max_frames_for_360) (inputs : List (ℚ × ℚ)) :
    (inputs.foldl (fun s p => process_frame_for_capture threshold interval s p.1 p.2)
      s0).frames_len ≤ max_frames_for_360 ∧
    (max_frames_for_360 ≤ s0.total_frames →
      ∀ now score : ℚ, process_frame_for_capture threshold interval s0 now score = s0) := by
  constructor
  · exact process_fold_cap threshold interval inputs s0 heq hle
  · intro hfull now score
    unfold process_frame_for_capture
    by_cases hA : now - s0.last_capture_time < interval
    · rw [if_pos hA]
    · rw [if_neg hA, if_pos hfull]

theorem frame_store_capped_witness :
    ([((100 : ℚ), (100 : ℚ))].foldl
      (fun s p => process_frame_for_capture 25 (3 / 2) s p.1 p.2)
      ⟨50, 50, 0, none, some 1⟩).frames_len ≤ max_frames_for_360 ∧
    process_frame_for_capture 25 (3 / 2) ⟨50, 50, 0, none, some 1⟩ 100 100 =
      ⟨50, 50, 0, none, some 1⟩ := by
  have h := frame_store_capped 25 (3 / 2) ⟨50, 50, 0, none, some 1⟩ rfl (by decide)
    [(100, 100)]
  exact ⟨h.1, h.2 (by decide) 100 100⟩

/-- Claim C10: along every sequence of session operations from the initial
state — acceptance-loop iterations, the initial direct capture, live-frame
updates, session start, and clear — the session counter `total_frames`
equals the number of stored frames: accepted captures append exactly one
frame and increment the counter by one in the same step, and start/clear
reset both together.  Consequently the cap check on `total_frames` and the
minimum-frames check on the list length agree. -/
theorem total_frames_equals_frame_count (threshold interval : ℚ) (ops : List CaptureOp) :
    (ops.foldl (capture_step threshold interval) initial_capture_state).total_frames =
      (ops.foldl (capture_step threshold interval) initial_capture_state).frames_len ∧
    (max_frames_for_360 ≤
        (ops.foldl (capture_step threshold interval) initial_capture_state).total_frames ↔
      max_frames_for_360 ≤
        (ops.foldl (capture_step threshold interval) initial_capture_state).frames_len) ∧
    (min_frames_before_stitch ≤
        (ops.foldl (capture_step threshold interval) initial_capture_state).frames_len ↔
      min_frames_before_stitch ≤
        (ops.foldl (capture_step threshold interval) initial_capture_state).total_frames) := by
  have h := capture_fold_eq threshold interval ops initial_capture_state rfl
  exact ⟨h, by rw [h], by rw [h]⟩

/-! ## Properties of the scene-change gate -/

lemma downscaled_dims_width (frame1 : Img) (hw : downscale_width < frame1.w) :
    (downscaled_dims frame1).1 = downscale_width := by
  unfold downscaled_dims
  have hw0 : (frame1.w : ℚ) ≠ 0 := by
    have hpos : 0 < frame1.w := Nat.lt_of_le_of_lt (Nat.zero_le downscale_width) hw
    exact_mod_cast hpos.ne'
  have hmul : (frame1.w : ℚ) * ((downscale_width : ℚ) / (frame1.w : ℚ)) =
      (downscale_width : ℚ) := by
    rw [mul_comm]
    exact div_mul_cancel₀ _ hw0
  rw [hmul]
  simp

/-- Claim C7: for every frame pair and any resolution, the gate decision of
the acceptance loop is exactly `d > threshold` (strict) where `d` is the
mean absolute luminance difference computed by `calculate_scene_change`;
frames wider than 320 px are first downscaled — both to the same target
raster, whose width is exactly 320 and whose height is scaled by the same
factor 320/w (aspect-preserving) — and frames at most 320 px wide are
compared as they are. -/
theorem scene_gate_spec (resize : Img → Nat → Nat → Img) (cvt_gray : Img → GrayImg)
    (frame1 frame2 : Img) (threshold : ℚ) :
    (scene_gate resize cvt_gray frame1 frame2 threshold = true ↔
      threshold < calculate_scene_change resize cvt_gray frame1 frame2) ∧
    (downscale_width < frame1.w →
      calculate_scene_change resize cvt_gray frame1 frame2 =
        mean_abs_diff
          (cvt_gray (resize frame1 downscale_width
            (⌊(frame1.h : ℚ) * ((downscale_width : ℚ) / (frame1.w : ℚ))⌋).toNat))
          (cvt_gray (resize frame2 downscale_width
            (⌊(frame1.h : ℚ) * ((downscale_width : ℚ) / (frame1.w : ℚ))⌋).toNat))) ∧
    (frame1.w ≤ downscale_width →
      calculate_scene_change resize cvt_gray frame1 frame2 =
        mean_abs_diff (cvt_gray frame1) (cvt_gray frame2)) := by
  refine ⟨by simp [scene_gate], ?_, ?_⟩
  · intro hw
    unfold calculate_scene_change
    rw [if_pos hw, downscaled_dims_width frame1 hw]
    rfl
  · intro hle
    unfold calculate_scene_change
    rw [if_neg (Nat.not_lt.mpr hle)]

theorem scene_gate_spec_witness :
    (scene_gate id_resize take_blue img_wide_a img_wide_b 5 = true ↔
      5 < calculate_scene_change id_resize take_blue img_wide_a img_wide_b) ∧
    calculate_scene_change id_resize take_blue img_wide_a img_wide_b =
      mean_abs_diff
        (take_blue (id_resize img_wide_a downscale_width
          (⌊(img_wide_a.h : ℚ) * ((downscale_width : ℚ) / (img_wide_a.w : ℚ))⌋).toNat))
        (take_blue (id_resize img_wide_b downscale_width
          (⌊(img_wide_a.h : ℚ) * ((downscale_width : ℚ) / (img_wide_a.w : ℚ))⌋).toNat)) ∧
    calculate_scene_change id_resize take_blue img_small img_small =
      mean_abs_diff (take_blue img_small) (take_blue img_small) := by
  refine ⟨(scene_gate_spec id_resize take_blue img_wide_a img_wide_b 5).1, ?_, ?_⟩
  · exact (scene_gate_spec id_resize take_blue img_wide_a img_wide_b 5).2.1
      (by decide)
  · exact (scene_gate_spec id_resize take_blue img_small img_small 5).2.2
      (by decide)

/-! ## Properties of the circle-completion detector -/

/-- Claim C8: with fewer than 10 frames `detect_full_circle` is `false`
for every choice of the feature-extraction and matching operations (the
guard fires before they can be consulted); with at least 10 frames it is
`true` exactly when extraction succeeds on the first and last frame with
more than 10 descriptors each and matching succeeds with more than 20
ratio-test survivors; in every other case — including any internal
`Except.error` from extraction or matching — it is `false`, and it never
propagates an error (its type is a total Bool). -/
theorem detect_full_circle_spec
    (detect_and_compute : Img → Except Unit (Option (List Nat)))
    (knn_match : List Nat → List Nat → Except Unit (List (List KnnMatch)))
    (frames : List Img) :
    (frames.length < 10 → detect_full_circle detect_and_compute knn_match frames = false) ∧
    (10 ≤ frames.length →
      (detect_full_circle detect_and_compute knn_match frames = true ↔
        ∃ (ff lf : Img) (d1 d2 : List Nat) (ms : List (List KnnMatch)),
          frames.head? = some ff ∧ frames.getLast? = some lf ∧
          detect_and_compute ff = .ok (some d1) ∧
          detect_and_compute lf = .ok (some d2) ∧
          10 < d1.length ∧ 10 < d2.length ∧
          knn_match d1 d2 = .ok ms ∧ 20 < (good_matches ms).length)) := by
  constructor
  · intro hlt
    unfold detect_full_circle
    rw [if_pos hlt]
  · intro h10
    have hnot : ¬ frames.length < 10 := Nat.not_lt.mpr h10
    have hne : frames ≠ [] := by
      intro hh
      rw [hh] at h10
      simp at h10
    obtain ⟨ff, hff⟩ : ∃ x, frames.head? = some x := by
      cases hf : frames.head? with
      | none => exact absurd (List.head?_eq_none_iff.mp hf) hne
      | some x => exact ⟨x, rfl⟩
    obtain ⟨lf, hlf⟩ : ∃ x, frames.getLast? = some x := by
      cases hf : frames.getLast? with
      | none => exact absurd (List.getLast?_eq_none_iff.mp hf) hne
      | some x => exact ⟨x, rfl⟩
    have hres : detect_full_circle detect_and_compute knn_match frames =
        (match detect_full_circle_attempt detect_and_compute knn_match frames with
         | .ok b => b
         | .error _ => false) := by
      unfold detect_full_circle
      rw [if_neg hnot]
    constructor
    · intro htrue
      have hok : detect_full_circle_attempt detect_and_compute knn_match frames =
          .ok true := by
        rw [hres] at htrue
        cases ha : detect_full_circle_attempt detect_and_compute knn_match frames with
        | ok b =>
            rw [ha] at htrue
            cases b
            · simp at htrue
            · rfl
        | error e =>
            rw [ha] at htrue
            simp at htrue
      unfold detect_full_circle_attempt at hok
      rw [hff, hlf] at hok
      cases hd1 : detect_and_compute ff with
      | error e =>
          simp only [hd1] at hok
          exact Except.noConfusion hok
      | ok des1 =>
          simp only [hd1] at hok
          cases hd2 : detect_and_compute lf with
          | error e =>
              simp only [hd2] at hok
              exact Except.noConfusion hok
          | ok des2 =>
              simp only [hd2] at hok
              cases des1 with
              | none => cases des2 <;> simp at hok
              | some d1 =>
                  cases des2 with
                  | none => simp at hok
                  | some d2 =>
                      dsimp only at hok
                      by_cases hlen : 10 < d1.length ∧ 10 < d2.length
                      · rw [if_pos hlen] at hok
                        cases hm : knn_match d1 d2 with
                        | error e =>
                            simp only [hm] at hok
                            exact Except.noConfusion hok
                        | ok ms =>
                            simp only [hm] at hok
                            have hg : 20 < (good_matches ms).length := by
                              have hd := Except.ok.inj hok
                              exact of_decide_eq_true hd
                            exact ⟨ff, lf, d1, d2, ms, hff, hlf, hd1, hd2,
                              hlen.1, hlen.2, hm, hg⟩
                      · rw [if_neg hlen] at hok
                        simp at hok
    · rintro ⟨ff2, lf2, d1, d2, ms, hff2, hlf2, hd1, hd2, hl1, hl2, hm, hg⟩
      have hok : detect_full_circle_attempt detect_and_compute knn_match frames =
          .ok true := by
        unfold detect_full_circle_attempt
        rw [hff2, hlf2]
        simp only [hd1, hd2]
        rw [if_pos ⟨hl1, hl2⟩]
        simp [hm, hg]
      rw [hres, hok]

lemma good_matches_replicate_pair (n : Nat) :
    good_matches (List.replicate n [({ distance := 0 } : KnnMatch), { distance := 1 }]) =
      List.replicate n ({ distance := 0 } : KnnMatch) := by
  have hcond : ((0 : ℚ) < 7 / 10 * 1) := by norm_num
  induction n with
  | zero => rfl
  | succ k ih =>
      rw [List.replicate_succ, List.replicate_succ]
      unfold good_matches at ih ⊢
      simp only [List.filterMap_cons]
      simp [hcond, ih]

theorem detect_full_circle_spec_witness :
    detect_full_circle detect_eleven knn_twentyone [] = false ∧
    detect_full_circle detect_eleven knn_twentyone frames_ten = true := by
  constructor
  · exact (detect_full_circle_spec detect_eleven knn_twentyone []).1 (by decide)
  · exact ((detect_full_circle_spec detect_eleven knn_twentyone frames_ten).2
      (by decide)).mpr
      ⟨img_small, img_small, List.range 11, List.range 11,
       List.replicate 21 [{ distance := 0 }, { distance := 1 }],
       rfl, rfl, rfl, rfl, by decide, by decide, rfl,
       by rw [good_matches_replicate_pair]; simp⟩

/-! ## Properties of the viewer navigation state -/

lemma float_mod_bounds (x : ℚ) : 0 ≤ float_mod x 360 ∧ float_mod x 360 < 360 := by
  have hfloor : ((⌊x / 360⌋ : ℤ) : ℚ) ≤ x / 360 := Int.floor_le _
  have hceil : x / 360 < (⌊x / 360⌋ : ℤ) + 1 := Int.lt_floor_add_one _
  unfold float_mod
  constructor
  · linarith
  · linarith

lemma np_clip_bounds (x lo hi : ℚ) (h : lo ≤ hi) :
    lo ≤ np_clip x lo hi ∧ np_clip x lo hi ≤ hi := by
  unfold np_clip
  exact ⟨le_min (le_max_right x lo) h, min_le_right _ _⟩

/-- Claim C9 (amended): after every input-event mutation of the viewer's
navigation state — mouse drag, arrow keys, the plus and minus keys, and
reset — starting from a state within the documented ranges, yaw lies in
[0, 360) with wraparound, pitch lies in [-45, 45] clamped, and the field of
view lies in [30, 150] clamped; the constructor's initial state satisfies
the ranges; but the initial CLI configuration (`viewer.fov = args.fov`)
installs the field-of-view argument without clamping, so it satisfies the
range only when the argument already lies in [30, 150]. -/
theorem nav_invariants (s : NavState) (e : NavEvent) (arg_fov : ℤ)
    (h : nav_in_range s) :
    nav_in_range (nav_step s e) ∧ nav_in_range viewer_init ∧
    (30 ≤ arg_fov → arg_fov ≤ 150 → nav_in_range (main_configure s arg_fov)) := by
  obtain ⟨hy0, hy1, hp0, hp1, hf0, hf1⟩ := h
  refine ⟨?_, by decide, ?_⟩
  · cases e with
    | drag dx dy =>
        have hclip := np_clip_bounds (s.pitch - dy * sensitivity) (-max_pitch) max_pitch
          (by norm_num [max_pitch])
        have hmod := float_mod_bounds (s.yaw + dx * sensitivity)
        simp only [nav_step, mouse_drag, nav_in_range]
        exact ⟨hmod.1, hmod.2, by simpa [max_pitch] using hclip.1,
          by simpa [max_pitch] using hclip.2, hf0, hf1⟩
    | reset =>
        simp only [nav_step, key_reset, nav_in_range]
        exact ⟨by norm_num, by norm_num, by norm_num, by norm_num, hf0, hf1⟩
    | fov_increase =>
        simp only [nav_step, key_fov_increase, nav_in_range]
        exact ⟨hy0, hy1, hp0, hp1, le_min (by omega) (by norm_num), min_le_right _ _⟩
    | fov_decrease =>
        simp only [nav_step, key_fov_decrease, nav_in_range]
        exact ⟨hy0, hy1, hp0, hp1, le_max_right _ _, max_le (by omega) (by norm_num)⟩
    | left =>
        have hmod := float_mod_bounds (s.yaw - 5)
        simp only [nav_step, key_left, nav_in_range]
        exact ⟨hmod.1, hmod.2, hp0, hp1, hf0, hf1⟩
    | right =>
        have hmod := float_mod_bounds (s.yaw + 5)
        simp only [nav_step, key_right, nav_in_range]
        exact ⟨hmod.1, hmod.2, hp0, hp1, hf0, hf1⟩
    | up =>
        have hclip := np_clip_bounds (s.pitch + 5) (-max_pitch) max_pitch
          (by norm_num [max_pitch])
        simp only [nav_step, key_up, nav_in_range]
        exact ⟨hy0, hy1, by simpa [max_pitch] using hclip.1,
          by simpa [max_pitch] using hclip.2, hf0, hf1⟩
    | down =>
        have hclip := np_clip_bounds (s.pitch - 5) (-max_pitch) max_pitch
          (by norm_num [max_pitch])
        simp only [nav_step, key_down, nav_in_range]
        exact ⟨hy0, hy1, by simpa [max_pitch] using hclip.1,
          by simpa [max_pitch] using hclip.2, hf0, hf1⟩
  · intro hlo hhi
    simp only [main_configure, nav_in_range]
    exact ⟨hy0, hy1, hp0, hp1, hlo, hhi⟩

theorem nav_invariants_witness :
    nav_in_range (nav_step viewer_init (.drag 10 (-1000))) ∧
    nav_in_range viewer_init ∧
    nav_in_range (main_configure viewer_init 150) := by
  have h := nav_invariants viewer_init (.drag 10 (-1000)) 150 (by decide)
  exact ⟨h.1, h.2.1, h.2.2 (by decide) (by decide)⟩

/-- Claim C9 counterexample: the initial configuration in `main` copies the
CLI field-of-view argument into the navigation state without clamping, so
running the viewer with a field-of-view argument of 200 yields a state
whose field of view violates the documented range [30, 150]. -/
theorem nav_fov_unclamped :
    ¬ nav_in_range (main_configure viewer_init 200) := by
  decide

/-! ## Properties of the cylindrical pre-warp -/

/-- Claim C1 evidence (code bug): the code computes the focal length as
`w / (2 * tan(pi / 6.85))`, whose half-angle pi/6.85 rad is about 26.28
degrees (an effective field of view of about 52.6 degrees), while the
formula claimed next to it — and in the code's own comment — is
`w / (2 * tan(f/2))` for f = 68.5 degrees, whose half-angle is 34.25
degrees.  At any width, here 800, the two focal lengths differ: the claimed
one is strictly smaller than the one the code computes. -/
theorem focal_length_fov_mismatch :
    focal_length_spec 800 68.5 < focal_length 800 ∧
    focal_length 800 ≠ focal_length_spec 800 68.5 := by
  have hpi := Real.pi_pos
  have ha : Real.pi / 6.85 = Real.pi * (1 / 6.85) := by ring
  have hb : (68.5 : ℝ) * Real.pi / 180 / 2 = Real.pi * (68.5 / 360) := by ring
  have hab : Real.pi / 6.85 < 68.5 * Real.pi / 180 / 2 := by
    rw [ha, hb]
    exact mul_lt_mul_of_pos_left (by norm_num) hpi
  have ha0 : 0 < Real.pi / 6.85 := by positivity
  have hb2 : (68.5 : ℝ) * Real.pi / 180 / 2 < Real.pi / 2 := by
    rw [hb]
    have h12 : (68.5 : ℝ) / 360 < 1 / 2 := by norm_num
    have := mul_lt_mul_of_pos_left h12 hpi
    linarith
  have hta : 0 < Real.tan (Real.pi / 6.85) :=
    Real.tan_pos_of_pos_of_lt_pi_div_two ha0 (hab.trans hb2)
  have htab : Real.tan (Real.pi / 6.85) < Real.tan (68.5 * Real.pi / 180 / 2) :=
    Real.tan_lt_tan_of_nonneg_of_lt_pi_div_two ha0.le hb2 hab
  have hlt : focal_length_spec 800 68.5 < focal_length 800 := by
    unfold focal_length focal_length_spec
    exact div_lt_div_of_pos_left (by norm_num) (by linarith) (by linarith)
  exact ⟨hlt, (ne_of_lt hlt).symm⟩

end Photosphere
